import Mathlib

/-
Verification of the Portfolio API service (src/main.py) against its
natural-language specification.

The service is a FastAPI application with five read-only routes returning
fixed data, a contact-form route with presence validation, and a /test
diagnostic route probing an optional database collaborator.  Each handler
is shallowly embedded below as a pure Lean function; request-level inputs
(parsed JSON fields, the collaborator's state, environment variables) are
passed explicitly.
-/

namespace Portfolio

/-- Embeds the pydantic model `Profile` (src/main.py lines 18-24).
`avatar` is optional; `socials` is a dict, embedded as an ordered
association list since Python dicts preserve insertion order. -/
structure Profile where
  name : String
  title : String
  location : String
  bio : String
  avatar : Option String
  socials : List (String × String)
deriving Repr, DecidableEq

/-- Embeds the pydantic model `Skill` (src/main.py lines 27-30). -/
structure Skill where
  name : String
  level : Option String
  category : Option String
deriving Repr, DecidableEq

/-- Embeds the pydantic model `Experience` (src/main.py lines 33-39);
the Python field `end` is spelled `end_` because `end` is a Lean keyword. -/
structure Experience where
  company : String
  role : String
  start : String
  end_ : String
  location : Option String
  achievements : List String := []
deriving Repr, DecidableEq

/-- Embeds the pydantic model `Project` (src/main.py lines 42-48). -/
structure Project where
  name : String
  description : String
  tech : List String
  repo : Option String
  live : Option String
  image : Option String
deriving Repr, DecidableEq

/-- Embeds the pydantic model `ContactMessage` (src/main.py lines 51-54). -/
structure ContactMessage where
  name : String
  email : String
  message : String
deriving Repr, DecidableEq

/-- Embeds `read_root` (src/main.py lines 57-59): the `message` field of the
returned object. -/
def read_root : String := "Portfolio Backend Running"

/-- Embeds `get_profile` (src/main.py lines 62-79): the fixed Profile. -/
def get_profile : Profile :=
  { name := "Your Name"
    title := "Software Engineer"
    location := "Remote / Worldwide"
    bio := "I craft scalable web apps and delightful developer experiences. I specialize in React, TypeScript, Node.js, and cloud-native backends."
    avatar := some "https://avatars.githubusercontent.com/u/9919?s=200&v=4"
    socials := [("github", "https://github.com/"),
                ("linkedin", "https://linkedin.com/in/"),
                ("twitter", "https://twitter.com/"),
                ("email", "mailto:you@example.com")] }

/-- Embeds `get_skills` (src/main.py lines 82-95): the fixed skill list. -/
def get_skills : List Skill :=
  [ { name := "JavaScript", level := some "Expert", category := some "Frontend" },
    { name := "TypeScript", level := some "Advanced", category := some "Frontend" },
    { name := "React", level := some "Advanced", category := some "Frontend" },
    { name := "Node.js", level := some "Advanced", category := some "Backend" },
    { name := "Python", level := some "Advanced", category := some "Backend" },
    { name := "FastAPI", level := some "Advanced", category := some "Backend" },
    { name := "MongoDB", level := some "Advanced", category := some "Database" },
    { name := "PostgreSQL", level := some "Intermediate", category := some "Database" },
    { name := "Docker", level := some "Intermediate", category := some "DevOps" },
    { name := "AWS", level := some "Intermediate", category := some "Cloud" } ]

/-- Embeds `get_experience` (src/main.py lines 98-124): the fixed
experience list, literally in source order. -/
def get_experience : List Experience :=
  [ { company := "Tech Co."
      role := "Senior Software Engineer"
      start := "2022"
      end_ := "Present"
      location := some "Remote"
      achievements :=
        [ "Led migration to micro frontends across 5 products",
          "Improved build times by 40% with module federation",
          "Mentored 6 engineers and introduced better code review practices" ] },
    { company := "Startup XYZ"
      role := "Full-Stack Engineer"
      start := "2020"
      end_ := "2022"
      location := some "San Francisco, CA"
      achievements :=
        [ "Shipped real-time collaboration features used by 50k+ users",
          "Designed FastAPI backend with WebSocket event system" ] } ]

/-- Embeds `get_projects` (src/main.py lines 127-154): the fixed project list. -/
def get_projects : List Project :=
  [ { name := "DevDash"
      description := "Developer productivity dashboard with integrations."
      tech := ["React", "Vite", "Tailwind", "FastAPI"]
      repo := some "https://github.com/"
      live := some "https://example.com"
      image := some "https://images.unsplash.com/photo-1555066931-4365d14bab8c?q=80&w=1200&auto=format&fit=crop" },
    { name := "TaskFlow"
      description := "Team task management with real-time updates."
      tech := ["TypeScript", "React", "MongoDB", "Socket.io"]
      repo := some "https://github.com/"
      live := some "https://example.com"
      image := some "https://images.unsplash.com/photo-1515879218367-8466d910aaa4?q=80&w=1200&auto=format&fit=crop" },
    { name := "API Kit"
      description := "Toolkit for building typed APIs quickly."
      tech := ["Python", "FastAPI", "Pydantic"]
      repo := some "https://github.com/"
      live := some "https://example.com"
      image := some "https://images.unsplash.com/photo-1518770660439-4636190af475?q=80&w=1200&auto=format&fit=crop" } ]

/-- Result of a request handler: either an HTTPException-style error with a
status code and detail message, or a success payload for the contact route. -/
inductive ContactResult where
  | httpError (status : Nat) (detail : String)
  | ok (status : String) (name : String)
deriving Repr, DecidableEq

/-- Embeds `submit_contact` (src/main.py lines 157-162).  The Python guard
`not msg.name or not msg.email or not msg.message` uses string truthiness:
it fires exactly when a field equals the empty string — no trimming happens,
so a whitespace-only field passes the check. -/
def submit_contact (msg : ContactMessage) : ContactResult :=
  if msg.name = "" ∨ msg.email = "" ∨ msg.message = "" then
    ContactResult.httpError 400 "All fields are required"
  else
    ContactResult.ok "received" msg.name

/-- Models the FastAPI request layer in front of `submit_contact`: the JSON
body is parsed against the `ContactMessage` pydantic schema, in which all
three fields are required.  A body missing a required field raises a
RequestValidationError, which FastAPI answers with HTTP 422 (Unprocessable
Entity) before the handler runs; a complete body reaches `submit_contact`. -/
def handleContactRequest (name email message : Option String) : ContactResult :=
  match name, email, message with
  | some n, some e, some m => submit_contact { name := n, email := e, message := m }
  | _, _, _ => ContactResult.httpError 422 "request validation error"

/-- The HTTP status code of a contact-route result (200 on success). -/
def resultStatus : ContactResult → Nat
  | ContactResult.httpError s _ => s
  | ContactResult.ok _ _ => 200

/-- State of the optional external database collaborator probed by `/test`
(src/main.py lines 177-197): the `database` module may fail to import
(ImportError or any other exception), its `db` handle may be None, or the
handle is live, carrying an optional `name` attribute and a
`list_collection_names()` call that either returns a list or raises. -/
inductive DbState where
  | importError
  | importRaises (msg : String)
  | handleNone
  | connected (name : Option String) (listing : Except String (List String))
deriving Repr

/-- The JSON object returned by `test_database` (src/main.py lines 168-175);
`database_url` and `database_name` start as None but are unconditionally
overwritten with strings before returning, so they are embedded as strings. -/
structure TestResponse where
  backend : String
  database : String
  database_url : String
  database_name : String
  connection_status : String
  collections : List String
deriving Repr, DecidableEq

/-- Truthiness of `os.getenv(...)` in Python: None (unset) and the empty
string are falsy; any other string is truthy. -/
def envTruthy : Option String → Bool
  | none => false
  | some s => s ≠ ""

/-- Embeds `test_database` (src/main.py lines 165-203) as a function of the
collaborator's state and the two environment variables.  Every failure path
is caught and written into the `database` field; lines 200-201 overwrite
`database_url` / `database_name` from the environment regardless of what
the try-block stored there. -/
def test_database (s : DbState) (dbUrl dbName : Option String) : TestResponse :=
  let probe : String × List String :=
    match s with
    | DbState.importError =>
        ("❌ Database module not found (run enable-database first)", [])
    | DbState.importRaises e => ("❌ Error: " ++ e.take 50, [])
    | DbState.handleNone => ("⚠️  Available but not initialized", [])
    | DbState.connected _ (Except.ok cols) =>
        ("✅ Connected & Working", cols.take 10)
    | DbState.connected _ (Except.error e) =>
        ("⚠️  Connected but Error: " ++ e.take 50, [])
  { backend := "✅ Running"
    database := probe.1
    database_url := if envTruthy dbUrl then "✅ Set" else "❌ Not Set"
    database_name := if envTruthy dbName then "✅ Set" else "❌ Not Set"
    connection_status :=
      match s with
      | DbState.connected _ _ => "Connected"
      | _ => "Not Connected"
    collections := probe.2 }

/-- True when a string is empty or consists only of whitespace, i.e. it is
empty after trimming. -/
def blankAfterTrim (s : String) : Bool := s.data.all (fun c => c.isWhitespace)

/-- Accumulates the decimal digits of a character list into a number,
ignoring non-digit characters; used to read the year a period starts. -/
def yearDigits : List Char → Nat → Nat
  | [], acc => acc
  | c :: cs, acc =>
      yearDigits cs (if c.isDigit then acc * 10 + (c.toNat - 48) else acc)

/-- The year in which an experience period starts, read from its free-form
`start` string. -/
def startYear (e : Experience) : Nat := yearDigits e.start.data 0

/-- Pairwise check that a list of experience entries is ordered
most-recent-first: each entry starts no earlier than the one after it. -/
def orderedMostRecentFirst : List Experience → Bool
  | [] => true
  | [_] => true
  | a :: b :: rest => (startYear b ≤ startYear a) && orderedMostRecentFirst (b :: rest)

/-- Consumes `p` as a prefix of `cs`, returning the remainder, or none if
`cs` does not start with `p`. -/
def dropPrefixed : List Char → List Char → Option (List Char)
  | rest, [] => some rest
  | [], _ :: _ => none
  | c :: cs, p :: ps => if c = p then dropPrefixed cs ps else none

/-- Characters allowed in a URL host: letters, digits, dot, hyphen. -/
def isHostChar (c : Char) : Bool := c.isAlphanum || c = '.' || c = '-'

/-- Syntactic URL validity over the characters after the scheme: the host
part (up to the first slash, query or fragment delimiter) must be non-empty
and made of host characters. -/
def hostValid (cs : List Char) : Bool :=
  let host := cs.takeWhile (fun c => !(c = '/' || c = '?' || c = '#'))
  !host.isEmpty && host.all isHostChar

/-- Syntactic validity of an http(s) URL, mirroring what pydantic's
`HttpUrl` requires of the fixed data: an `http://` or `https://` scheme
followed by a non-empty well-formed host. -/
def isValidHttpUrl (s : String) : Bool :=
  match dropPrefixed s.data "https://".data with
  | some rest => hostValid rest
  | none =>
      match dropPrefixed s.data "http://".data with
      | some rest => hostValid rest
      | none => false

/-- Validity of an optional URL field: vacuously true when absent. -/
def optUrlValid : Option String → Bool
  | none => true
  | some u => isValidHttpUrl u

/-- JSON rendering of a string literal (none of the fixed strings need
escaping). -/
def jstr (s : String) : String := "\"" ++ s ++ "\""

/-- JSON rendering of an array given its already-rendered items. -/
def jarr (items : List String) : String :=
  "[" ++ String.intercalate "," items ++ "]"

/-- JSON rendering of an object given its keys and already-rendered values. -/
def jobj (fields : List (String × String)) : String :=
  "\x7b" ++ String.intercalate "," (fields.map (fun f => jstr f.1 ++ ":" ++ f.2)) ++ "\x7d"

/-- JSON rendering of an optional string field (null when absent). -/
def joptStr : Option String → String
  | none => "null"
  | some s => jstr s

/-- Serializes a `Profile` the way FastAPI serializes the pydantic model:
fields in declaration order. -/
def Profile.renderJson (p : Profile) : String :=
  jobj [("name", jstr p.name), ("title", jstr p.title),
        ("location", jstr p.location), ("bio", jstr p.bio),
        ("avatar", joptStr p.avatar),
        ("socials", jobj (p.socials.map (fun kv => (kv.1, jstr kv.2))))]

/-- Serializes a `Skill` in field declaration order. -/
def Skill.renderJson (s : Skill) : String :=
  jobj [("name", jstr s.name), ("level", joptStr s.level),
        ("category", joptStr s.category)]

/-- Serializes an `Experience` in field declaration order. -/
def Experience.renderJson (e : Experience) : String :=
  jobj [("company", jstr e.company), ("role", jstr e.role),
        ("start", jstr e.start), ("end", jstr e.end_),
        ("location", joptStr e.location),
        ("achievements", jarr (e.achievements.map jstr))]

/-- Serializes a `Project` in field declaration order. -/
def Project.renderJson (p : Project) : String :=
  jobj [("name", jstr p.name), ("description", jstr p.description),
        ("tech", jarr (p.tech.map jstr)),
        ("repo", joptStr p.repo), ("live", joptStr p.live),
        ("image", joptStr p.image)]

/-- The five read-only routes of the service. -/
inductive Route where
  | root
  | profile
  | skills
  | experience
  | projects
deriving Repr, DecidableEq

/-- The JSON payload each read-only route serves, built by the corresponding
handler from its fixed data. -/
def readOnlyPayload : Route → String
  | Route.root => jobj [("message", jstr read_root)]
  | Route.profile => get_profile.renderJson
  | Route.skills => jarr (get_skills.map Skill.renderJson)
  | Route.experience => jarr (get_experience.map Experience.renderJson)
  | Route.projects => jarr (get_projects.map Project.renderJson)

/-- A call to a read-only route: the handlers read no mutable process state,
so the response is a function of the route alone; the call index only
identifies which request of the process lifetime is being served. -/
def respondReadOnly (r : Route) (_call : Nat) : String := readOnlyPayload r

/-- C1 (counterexample): the claim says a request whose name consists only
of whitespace is rejected with the 400 "All fields are required" error.  On
the input with name a single space, email "a@example.com" and message "hi",
the name is blank after trimming, yet `submit_contact` accepts the request:
the guard tests Python truthiness, which does not trim. -/
theorem contact_whitespace_name_accepted :
    blankAfterTrim " " = true ∧
    submit_contact { name := " ", email := "a@example.com", message := "hi" } ≠
      ContactResult.httpError 400 "All fields are required" := by
  exact ⟨rfl, by decide⟩

/-- C1 (amended): POST /api/contact fails with the 400 error
"All fields are required" if and only if at least one of name, email,
message is exactly the empty string; no trimming is performed, so
whitespace-only fields are accepted. -/
theorem contact_error_iff_empty_field (msg : ContactMessage) :
    submit_contact msg = ContactResult.httpError 400 "All fields are required" ↔
      (msg.name = "" ∨ msg.email = "" ∨ msg.message = "") := by
  by_cases h : msg.name = "" ∨ msg.email = "" ∨ msg.message = ""
  · simp [submit_contact, h]
  · simp [submit_contact, h]

/-- C2: for every ContactMessage whose name, email and message are all
non-empty, `submit_contact` succeeds and returns exactly
status "received" with the input's name echoed unchanged.  The handler is a
pure function of the message — it has no other effect. -/
theorem contact_success_echoes_name (msg : ContactMessage)
    (hn : msg.name ≠ "") (he : msg.email ≠ "") (hm : msg.message ≠ "") :
    submit_contact msg = ContactResult.ok "received" msg.name := by
  simp [submit_contact, hn, he, hm]

/-- C2 (witness): the spec's own example, name "Alice", succeeds and echoes
the name. -/
theorem contact_success_echoes_name_witness :
    submit_contact { name := "Alice", email := "a@example.com", message := "hi" } =
      ContactResult.ok "received" "Alice" :=
  contact_success_echoes_name
    { name := "Alice", email := "a@example.com", message := "hi" }
    (by decide) (by decide) (by decide)

/-- C3 (counterexample): the claim says a body omitting the message field
gets HTTP 400; FastAPI answers the pydantic schema failure with 422, so on
the body with name "Alice" and email "a@example.com" but no message the
status is not 400. -/
theorem contact_missing_message_not_400 :
    resultStatus (handleContactRequest (some "Alice") (some "a@example.com") none) ≠ 400 := by
  decide

/-- C3 (amended): every POST /api/contact request whose body omits the
message field is rejected with HTTP 422, FastAPI's status for schema
validation failures. -/
theorem contact_missing_message_is_422 (name email : Option String) :
    resultStatus (handleContactRequest name email none) = 422 := by
  cases name <;> cases email <;> rfl

/-- C3 (witness of the amended claim): the concrete body with name "Alice"
and email present but message omitted gets status 422. -/
theorem contact_missing_message_is_422_witness :
    resultStatus (handleContactRequest (some "Alice") (some "a@example.com") none) = 422 :=
  contact_missing_message_is_422 (some "Alice") (some "a@example.com")

/-- C4: for every state of the external database collaborator (module
absent, import raising, handle None, listing raising, or working) and every
environment, GET /test returns a normal response whose backend field is
"✅ Running"; every failure is folded into the `database` string field. -/
theorem test_backend_always_running (s : DbState) (dbUrl dbName : Option String) :
    (test_database s dbUrl dbName).backend = "✅ Running" := by
  cases s <;> rfl

/-- C5 (counterexample): the claim says database_url is "✅ Set" exactly
when the DATABASE_URL environment variable is set.  With DATABASE_URL set
to the empty string (set, but falsy in Python), the response reports
"❌ Not Set". -/
theorem test_database_url_empty_env_not_set :
    (some "" : Option String) ≠ none ∧
    (test_database (DbState.connected none (Except.ok [])) (some "") (some "x")).database_url =
      "❌ Not Set" := by
  exact ⟨by decide, rfl⟩

/-- C5 (amended): in every GET /test response, database_url is "✅ Set"
exactly when DATABASE_URL is set to a non-empty string (an unset or
empty-string variable reports "❌ Not Set"), and likewise database_name for
DATABASE_NAME, independent of the collaborator's state: the env check at
the end of the handler overrides anything derived from connectivity. -/
theorem test_env_flags_iff_nonempty (s : DbState) (dbUrl dbName : Option String) :
    ((test_database s dbUrl dbName).database_url = "✅ Set" ↔
      (∃ v, dbUrl = some v ∧ v ≠ "")) ∧
    ((test_database s dbUrl dbName).database_name = "✅ Set" ↔
      (∃ v, dbName = some v ∧ v ≠ "")) := by
  constructor
  · cases dbUrl with
    | none => simp [test_database, envTruthy]
    | some v =>
        by_cases hv : v = "" <;> simp [test_database, envTruthy, hv]
  · cases dbName with
    | none => simp [test_database, envTruthy]
    | some v =>
        by_cases hv : v = "" <;> simp [test_database, envTruthy, hv]

/-- C6: GET /api/experience always succeeds (the handler is a total
function returning the fixed list) and the list is ordered
most-recent-first: each entry's period starts no earlier than the next
entry's (2022 before 2020). -/
theorem experience_most_recent_first :
    orderedMostRecentFirst get_experience = true := by decide

/-- C7: every read-only route (/, /api/profile, /api/skills,
/api/experience, /api/projects) is deterministic: any two calls to the same
route within a process lifetime serve byte-identical JSON payloads, since
the handlers read no mutable process state. -/
theorem read_only_routes_deterministic (r : Route) (i j : Nat) :
    respondReadOnly r i = respondReadOnly r j := rfl

/-- C8: in the fixed data, the Profile's avatar (present) is a
syntactically valid URL, and every Project's repo, live and image, when
present, are syntactically valid URLs. -/
theorem fixed_urls_valid :
    (optUrlValid get_profile.avatar &&
      get_projects.all (fun p =>
        optUrlValid p.repo && optUrlValid p.live && optUrlValid p.image)) = true := by
  decide

/-- C9: every Project returned by GET /api/projects has a non-empty tech
list, even though no validation rule enforces this. -/
theorem projects_tech_nonempty :
    get_projects.all (fun p => !p.tech.isEmpty) = true := by decide

/-- C10: in every GET /test response, collections has at most 10 elements;
when the collaborator's listing succeeds it is the first 10 names, and in
every other collaborator state it is empty. -/
theorem test_collections_at_most_ten (s : DbState) (dbUrl dbName : Option String) :
    (test_database s dbUrl dbName).collections.length ≤ 10 ∧
    (∀ nm cols, s = DbState.connected nm (Except.ok cols) →
      (test_database s dbUrl dbName).collections = cols.take 10) ∧
    ((∀ nm cols, s ≠ DbState.connected nm (Except.ok cols)) →
      (test_database s dbUrl dbName).collections = []) := by
  cases s with
  | importError => exact ⟨by simp [test_database], by simp [test_database], fun _ => rfl⟩
  | importRaises e => exact ⟨by simp [test_database], by simp [test_database], fun _ => rfl⟩
  | handleNone => exact ⟨by simp [test_database], by simp [test_database], fun _ => rfl⟩
  | connected nm listing =>
      cases listing with
      | ok cols =>
          refine ⟨?_, ?_, ?_⟩
          · simp [test_database]
          · intro nm' cols' h
            cases h
            rfl
          · intro h
            exact absurd rfl (h nm cols)
      | error e => exact ⟨by simp [test_database], by simp [test_database], fun _ => rfl⟩

/-- C10 (witness): with a connected collaborator whose listing returns
eleven names, the response's collections are the first ten. -/
theorem test_collections_at_most_ten_witness :
    (test_database
        (DbState.connected none
          (Except.ok ["a", "b", "c", "d", "e", "f", "g", "h", "i", "j", "k"]))
        none none).collections =
      ["a", "b", "c", "d", "e", "f", "g", "h", "i", "j", "k"].take 10 :=
  (test_collections_at_most_ten
      (DbState.connected none
        (Except.ok ["a", "b", "c", "d", "e", "f", "g", "h", "i", "j", "k"]))
      none none).2.1 none
    ["a", "b", "c", "d", "e", "f", "g", "h", "i", "j", "k"] rfl

end Portfolio
